import Mathlib

/-!
Verification of the autoapprove command wrapper (scripts/autoapprove/autoapprove.py).

The Python source is shallowly embedded as executable Lean definitions:
strings are Lean strings processed as lists of characters, the character
classes of the regular expressions and of the str methods are modelled at
the ASCII level (every input exercised by this development is ASCII), and
filesystem / process effects are modelled as explicit data (requested
directory creations, spawn outcomes supplied as parameters, captured
streams returned as record fields).
-/

namespace Autoapprove

/-! ## Character and list helpers (ASCII-level models of Python str / re behaviour) -/

/-- Hexadecimal digit, as in the character class 0-9a-fA-F. -/
def isHexChar (c : Char) : Bool :=
  c.isDigit || (decide ('a' ≤ c) && decide (c ≤ 'f')) || (decide ('A' ≤ c) && decide (c ≤ 'F'))

/-- Character allowed in a hextet-or-colon run, class [0-9a-fA-F:]. -/
def isHexColonChar (c : Char) : Bool := isHexChar c || c == ':'

/-- Character allowed in the host part of HOST_PORT_PATTERN, class [a-zA-Z0-9.-]. -/
def isHostChar (c : Char) : Bool := c.isAlphanum || c == '.' || c == '-'

/-- Lowercasing of a string, modelling str.lower at the ASCII level. -/
def lowerStr (s : String) : String := ⟨s.data.map Char.toLower⟩

/-- Python str.split(sep): split at every occurrence of sep, keeping empty pieces. -/
def splitChar (sep : Char) : List Char → List (List Char)
  | [] => [[]]
  | c :: rest =>
    let r := splitChar sep rest
    if c == sep then [] :: r
    else
      match r with
      | h :: t => (c :: h) :: t
      | [] => [[c]]

/-- Split at the first occurrence of sep, returning the pieces before and after it. -/
def splitFirst (sep : Char) : List Char → Option (List Char × List Char)
  | [] => none
  | c :: rest =>
    if c == sep then some ([], rest)
    else (splitFirst sep rest).map (fun p => (c :: p.1, p.2))

/-- Split at the last occurrence of sep (Python str.rsplit(sep, 1)). -/
def splitLast (sep : Char) (l : List Char) : Option (List Char × List Char) :=
  match splitFirst sep l.reverse with
  | some (a, b) => some (b.reverse, a.reverse)
  | none => none

/-- The part after the first occurrence of sep, or empty when sep is absent
(Python str.partition(sep)[2]). -/
def afterFirstChar (sep : Char) (l : List Char) : List Char :=
  match splitFirst sep l with
  | some p => p.2
  | none => []

/-- The part before the first occurrence of sep, or the whole list when absent
(Python str.partition(sep)[0]). -/
def beforeFirstChar (sep : Char) (l : List Char) : List Char :=
  match splitFirst sep l with
  | some p => p.1
  | none => l

/-- The part after the last occurrence of sep, or the whole list when absent
(Python str.rpartition(sep)[2]). -/
def afterLastChar (sep : Char) (l : List Char) : List Char :=
  match splitLast sep l with
  | some p => p.2
  | none => l

/-- Whether the pattern list is an initial segment of the first list. -/
def startsWithList : List Char → List Char → Bool
  | _, [] => true
  | [], _ :: _ => false
  | c :: cs, p :: ps => c == p && startsWithList cs ps

/-- Decimal value of a digit string (the characters are known to be digits). -/
def decToNat (l : List Char) : Nat := l.foldl (fun a c => 10 * a + (c.toNat - '0'.toNat)) 0

/-- Value of one hexadecimal digit. -/
def hexVal (c : Char) : Nat :=
  if c.isDigit then c.toNat - '0'.toNat
  else if decide ('a' ≤ c) && decide (c ≤ 'f') then c.toNat - 'a'.toNat + 10
  else if decide ('A' ≤ c) && decide (c ≤ 'F') then c.toNat - 'A'.toNat + 10
  else 0

/-- Hexadecimal value of a hex-digit string. -/
def hexToNat (l : List Char) : Nat := l.foldl (fun a c => 16 * a + hexVal c) 0

/-! ## Model of the Python standard library module ipaddress

The wrapper calls ipaddress.ip_address and the is_loopback property.  The
definitions below transcribe the parsing logic of IPv4Address and
IPv6Address (octet and hextet validation, the single-"::" rule, the
embedded-IPv4 tail, the scope suffix) from the standard library. -/

/-- IPv4Address._parse_octet: 1-3 decimal digits, no leading zero, value at most 255. -/
def parseOctet (p : List Char) : Option Nat :=
  if p.isEmpty then none
  else if !(p.all Char.isDigit) then none
  else if decide (p.length > 3) then none
  else if decide (p.length > 1) && (p.headD '0' == '0') then none
  else if decide (decToNat p > 255) then none
  else some (decToNat p)

/-- IPv4Address parsing: exactly four octets separated by dots; the constructor
also rejects strings containing a slash. -/
def parseIPv4 (l : List Char) : Option Nat :=
  if l.isEmpty || l.contains '/' then none
  else
    match splitChar '.' l with
    | [a, b, c, d] =>
      match parseOctet a, parseOctet b, parseOctet c, parseOctet d with
      | some x, some y, some z, some w => some (((x * 256 + y) * 256 + z) * 256 + w)
      | _, _, _, _ => none
    | _ => none

/-- IPv6Address._parse_hextet: 1-4 hexadecimal digits. -/
def parseHextet (p : List Char) : Option Nat :=
  if p.isEmpty then none
  else if !(p.all isHexChar) then none
  else if decide (p.length > 4) then none
  else some (hexToNat p)

/-- Big-endian accumulation of hextets, failing on any invalid hextet. -/
def foldHextets (ps : List (List Char)) : Option Nat :=
  ps.foldl
    (fun acc p =>
      match acc, parseHextet p with
      | some a, some v => some (a * 65536 + v)
      | _, _ => none)
    (some 0)

/-- Absolute indices of empty parts strictly between the first and last part
(the candidate positions of a "::" compression). -/
def emptyInnerIndices (parts : List (List Char)) : List Nat :=
  (List.range parts.length).filter
    (fun i => decide (1 ≤ i) && decide (i + 1 < parts.length) && (parts.getD i [' ']).isEmpty)

/-- IPv6Address._ip_int_from_string after splitting on colons (and after the
embedded-IPv4 tail has been replaced by two hextets): at most nine parts, at
most one interior empty part marking the "::", an empty first or last part
only as part of a leading or trailing "::", and between the pieces enough
hextets skipped by the "::" to fill eight in total. -/
def assembleIPv6 (parts : List (List Char)) : Option Nat :=
  if decide (parts.length > 9) then none
  else
    match emptyInnerIndices parts with
    | [] =>
      if decide (parts.length ≠ 8) then none
      else if (parts.headD [' ']).isEmpty then none
      else if (parts.getLastD [' ']).isEmpty then none
      else foldHextets parts
    | [i] =>
      let headEmpty := (parts.headD [' ']).isEmpty
      let lastEmpty := (parts.getLastD [' ']).isEmpty
      if headEmpty && decide (i - 1 ≠ 0) then none
      else if lastEmpty && decide (parts.length - i - 2 ≠ 0) then none
      else
        let hi := if headEmpty then i - 1 else i
        let lo := if lastEmpty then parts.length - i - 2 else parts.length - i - 1
        if decide (hi + lo + 1 > 8) then none
        else
          match foldHextets (parts.take hi), foldHextets (parts.drop (parts.length - lo)) with
          | some hv, some lv => some (hv * 2 ^ (16 * (8 - hi)) + lv)
          | _, _ => none
    | _ => none

/-- IPv6Address parsing of the address body (scope already removed): at least
three colon-separated parts, an optional embedded IPv4 tail converted to two
hextets, then hextet assembly. -/
def parseIPv6NoScope (l : List Char) : Option Nat :=
  if l.isEmpty then none
  else
    let parts := splitChar ':' l
    if decide (parts.length < 3) then none
    else
      let lastPart := parts.getLastD []
      if lastPart.contains '.' then
        match parseIPv4 lastPart with
        | none => none
        | some v =>
          assembleIPv6 (parts.dropLast ++ [Nat.toDigits 16 (v / 65536), Nat.toDigits 16 (v % 65536)])
      else assembleIPv6 parts

/-- IPv6Address parsing including the constructor checks: no slash, and an
optional nonempty percent-separated scope suffix. -/
def parseIPv6 (l : List Char) : Option Nat :=
  if l.contains '/' then none
  else
    match splitFirst '%' l with
    | none => parseIPv6NoScope l
    | some (addr, scope) =>
      if scope.isEmpty || scope.contains '%' then none else parseIPv6NoScope addr

/-- Result of ipaddress.ip_address: an IPv4 or IPv6 address value. -/
inductive PyIPAddr where
  | v4 (value : Nat)
  | v6 (value : Nat)
deriving DecidableEq, Repr

/-- ipaddress.ip_address: try IPv4 first, then IPv6; failure of both models the
ValueError. -/
def ip_address (s : String) : Option PyIPAddr :=
  match parseIPv4 s.data with
  | some v => some (.v4 v)
  | none =>
    match parseIPv6 s.data with
    | some v => some (.v6 v)
    | none => none

/-- The is_loopback property: membership in 127.0.0.0/8 for IPv4, equality with
::1 for IPv6. -/
def isLoopbackIP : PyIPAddr → Bool
  | .v4 v => v / 16777216 == 127
  | .v6 v => v == 1

/-! ## The loopback policy (is_loopback_address, is_allowed_host) -/

/-- is_loopback_address: parse with ip_address and ask is_loopback; a parse
failure (ValueError) is caught and answered with False. -/
def is_loopback_address (address : String) : Bool :=
  match ip_address address with
  | some ip => isLoopbackIP ip
  | none => false

/-- LOOPBACK_HOSTNAMES, the fixed allowed hostname set. -/
def LOOPBACK_HOSTNAMES : List String :=
  ["localhost", "localhost.localdomain", "ip6-localhost", "ip6-loopback"]

/-- Membership in the strip set of is_allowed_host: the two bracket characters. -/
def isBracketChar (c : Char) : Bool := c == '[' || c == ']'

/-- Python str.strip of the two bracket characters on a character list: remove
leading and trailing characters drawn from the set left-bracket/right-bracket. -/
def stripBrackList (l : List Char) : List Char :=
  ((l.dropWhile isBracketChar).reverse.dropWhile isBracketChar).reverse

/-- Python str.strip of the two bracket characters. -/
def stripBracketChars (s : String) : String := ⟨stripBrackList s.data⟩

/-- is_allowed_host: strip surrounding brackets, then accept a loopback
hostname (case-insensitively) or a loopback IP address. -/
def is_allowed_host (host : String) : Bool :=
  let host := stripBracketChars host
  if LOOPBACK_HOSTNAMES.contains (lowerStr host) then true
  else is_loopback_address host

/-- Spec-side allowance predicate, stated from the specification words for the
refinement comparison of the policy: a host is allowed iff its lowercase form
is one of the fixed hostname set, or it parses as a valid IP address whose
value is in the loopback range (127.0.0.0/8 for IPv4, ::1 for IPv6). -/
def specAllowedHost (host : String) : Bool :=
  LOOPBACK_HOSTNAMES.contains (lowerStr host) ||
    (match ip_address host with
     | some (.v4 v) => v / 16777216 == 127
     | some (.v6 v) => v == 1
     | none => false)

/-! ## Model of urllib.parse hostname extraction (extract_host_from_url) -/

/-- Characters permitted after the first one in a URL scheme. -/
def isSchemeChar (c : Char) : Bool := c.isAlphanum || c == '+' || c == '-' || c == '.'

/-- urlsplit scheme handling: when the text before the first colon is a valid
scheme, continue with the text after that colon, otherwise with the whole
input. -/
def splitSchemeRest (l : List Char) : List Char :=
  match splitFirst ':' l with
  | some (sc, r) =>
    match sc with
    | c :: cs => if c.isAlpha && cs.all isSchemeChar then r else l
    | [] => l
  | none => l

/-- The netloc: everything up to the first slash, question mark or hash. -/
def takeNetloc (l : List Char) : List Char :=
  l.takeWhile fun c => !(c == '/') && !(c == '?') && !(c == '#')

/-- The IPvFuture shape accepted inside brackets: a lowercase v, one or more
hexadecimal digits, a dot, then at least one further character (no newline). -/
def vFutureShape (h : List Char) : Bool :=
  match h with
  | 'v' :: rest =>
    match splitFirst '.' rest with
    | some (hex, tail) =>
      !hex.isEmpty && hex.all isHexChar && !tail.isEmpty && tail.all fun c => !(c == '\n')
    | none => false
  | _ => false

/-- urllib.parse._check_bracketed_host: a bracketed host must be an IPvFuture
literal (when it starts with v or V) or a valid IPv6 address; an IPv4 address
or unparsable text raises, modelled as False. -/
def checkBracketedHost (h : List Char) : Bool :=
  if !h.isEmpty && ((h.headD 'v' == 'v') || (h.headD 'v' == 'V')) then vFutureShape h
  else
    match parseIPv4 h with
    | some _ => false
    | none => (parseIPv6 h).isSome

/-- extract_host_from_url: urlparse(url).hostname with any exception caught and
answered with None.  Models urlsplit of CPython 3.11+: tab and newline
characters are removed, a valid scheme is split off, the netloc runs from a
double slash to the next delimiter, mismatched brackets or an invalid
bracketed host raise, the user-info part is dropped at the last at-sign, a
bracketed host is the text inside the brackets and an unbracketed one stops at
the first colon, and the result is lowercased, with an empty hostname reported
as None. -/
def extract_host_from_url (url : String) : Option String :=
  let u := url.data.filter fun c => !(c == '\t') && !(c == '\r') && !(c == '\n')
  let rest := splitSchemeRest u
  match rest with
  | '/' :: '/' :: r =>
    let netloc := takeNetloc r
    if (netloc.contains '[' : Bool) != (netloc.contains ']' : Bool) then none
    else if netloc.contains '[' &&
        !(checkBracketedHost (beforeFirstChar ']' (afterFirstChar '[' netloc))) then none
    else
      let hostinfo := afterLastChar '@' netloc
      let hostname :=
        if hostinfo.contains '[' then beforeFirstChar ']' (afterFirstChar '[' hostinfo)
        else hostinfo.takeWhile fun c => !(c == ':')
      if hostname.isEmpty then none
      else some ⟨hostname.map Char.toLower⟩
  | _ => none

/-! ## extract_host_from_address -/

/-- The bracket regex of extract_host_from_address, anchored: a left bracket,
one or more non-right-bracket characters (the group), a right bracket, then an
optional colon-digits port; the group is returned on success. -/
def bracketAddrInner (l : List Char) : Option (List Char) :=
  match l with
  | '[' :: rest =>
    match splitFirst ']' rest with
    | some (inner, tail) =>
      if inner.isEmpty then none
      else
        match tail with
        | [] => some inner
        | ':' :: d => if !d.isEmpty && d.all Char.isDigit then some inner else none
        | _ => none
    | none => none
  | _ => none

/-- extract_host_from_address: for a bracketed address take the bracket
contents (falling back to the whole string when the bracket regex fails); for
a colon-containing address drop the final colon-digits segment when the text
after the last colon is all digits; otherwise return the string unchanged. -/
def extract_host_from_address (address : String) : String :=
  if address.data.headD ' ' == '[' then
    match bracketAddrInner address.data with
    | some inner => ⟨inner⟩
    | none => address
  else if address.data.contains ':' then
    match splitLast ':' address.data with
    | some (before, after) =>
      if !after.isEmpty && after.all Char.isDigit then ⟨before⟩ else address
    | none => address
  else address

/-! ## The four token patterns -/

/-- URL_PATTERN: a case-insensitive http, https, ftp or ftps scheme at the
start of the token. -/
def urlMatch (s : String) : Bool :=
  let l := s.data.map Char.toLower
  startsWithList l "http://".data || startsWithList l "https://".data ||
    startsWithList l "ftp://".data || startsWithList l "ftps://".data

/-- One to three decimal digits, the repeated piece of IPV4_PATTERN. -/
def octetShape (p : List Char) : Bool :=
  !p.isEmpty && decide (p.length ≤ 3) && p.all Char.isDigit

/-- IPV4_PATTERN: four dot-separated runs of one to three digits, the last
optionally followed by a colon and a digit run. -/
def ipv4PatMatch (s : String) : Bool :=
  match splitChar '.' s.data with
  | [a, b, c, d] =>
    octetShape a && octetShape b && octetShape c &&
      (match splitFirst ':' d with
       | none => octetShape d
       | some (x, port) => octetShape x && !port.isEmpty && port.all Char.isDigit)
  | _ => false

/-- IPV6_PATTERN: an optional left bracket, a nonempty run of hexadecimal
digits and colons, an optional right bracket, an optional colon-digits port.
When a right bracket is present it must be the first one, followed by nothing
or by the port; without one, the port digits and colon already lie in the
run's character class, so the whole token must be a nonempty hex-and-colon
run. -/
def ipv6PatMatch (s : String) : Bool :=
  let t := match s.data with
    | '[' :: r => r
    | l => l
  match splitFirst ']' t with
  | none => !t.isEmpty && t.all isHexColonChar
  | some (a, b) =>
    !a.isEmpty && a.all isHexColonChar &&
      (b.isEmpty ||
        (match b with
         | ':' :: d => !d.isEmpty && d.all Char.isDigit
         | _ => false))

/-- HOST_PORT_PATTERN: a nonempty run of letters, digits, dots and hyphens,
optionally followed by a colon and a digit run. -/
def hostPortMatch (s : String) : Bool :=
  match splitFirst ':' s.data with
  | none => !s.data.isEmpty && s.data.all isHostChar
  | some (h, p) => !h.isEmpty && h.all isHostChar && !p.isEmpty && p.all Char.isDigit

/-! ## The validator (validate_network_args) -/

/-- The per-token check of the validate_network_args loop body after the flag
prefix has been handled: try URL, then IPv4, then IPv6, then host-colon-port,
first match wins; under the first matching category extract the host and deny
(with the category's message around the token) when the host is nonempty and
not allowed. -/
def classifyNonFlag (arg : String) : Option String :=
  if urlMatch arg then
    match extract_host_from_url arg with
    | some host =>
      if !host.data.isEmpty && !is_allowed_host host then
        some ("URL contains non-loopback host: " ++ arg)
      else none
    | none => none
  else if ipv4PatMatch arg then
    (let host := extract_host_from_address arg
     if !host.data.isEmpty && !is_allowed_host host then
       some ("IPv4 address is not loopback: " ++ arg)
     else none)
  else if ipv6PatMatch arg then
    (let host := extract_host_from_address arg
     if !host.data.isEmpty && !is_allowed_host host then
       some ("IPv6 address is not loopback: " ++ arg)
     else none)
  else if hostPortMatch arg && arg.data.contains ':' then
    (let host := extract_host_from_address arg
     if !host.data.isEmpty && !is_allowed_host host then
       some ("Host:port contains non-loopback host: " ++ arg)
     else none)
  else none

/-- One loop iteration of validate_network_args: a token starting with a dash
is replaced by the text after its first equals sign, or skipped entirely when
it has none; every other token is classified directly.  The result is the
denial message, when any. -/
def checkToken (arg : String) : Option String :=
  if arg.data.headD ' ' == '-' then
    match splitFirst '=' arg.data with
    | some (_, value) => classifyNonFlag ⟨value⟩
    | none => none
  else classifyNonFlag arg

/-- validate_network_args: scan the arguments left to right and stop at the
first denial; report validity together with the denial message (empty when
valid). -/
def validate_network_args : List String → Bool × String
  | [] => (true, "")
  | arg :: rest =>
    match checkToken arg with
    | some msg => (false, msg)
    | none => validate_network_args rest

/-- The five classification outcomes of the per-token precedence chain. -/
inductive TokenClass where
  | url
  | ipv4
  | ipv6
  | hostPort
  | plain
deriving DecidableEq, Repr

/-- The category selected for a token by the fixed precedence order: URL, then
IPv4, then IPv6, then host-colon-port, else plain. -/
def classifyToken (arg : String) : TokenClass :=
  if urlMatch arg then .url
  else if ipv4PatMatch arg then .ipv4
  else if ipv6PatMatch arg then .ipv6
  else if hostPortMatch arg && arg.data.contains ':' then .hostPort
  else .plain

/-- The handler of each category in isolation: extract the host the way that
category does and deny with that category's message when it is not allowed. -/
def judgeToken : TokenClass → String → Option String
  | .url, arg =>
    (match extract_host_from_url arg with
     | some host =>
       if !host.data.isEmpty && !is_allowed_host host then
         some ("URL contains non-loopback host: " ++ arg)
       else none
     | none => none)
  | .ipv4, arg =>
    (let host := extract_host_from_address arg
     if !host.data.isEmpty && !is_allowed_host host then
       some ("IPv4 address is not loopback: " ++ arg)
     else none)
  | .ipv6, arg =>
    (let host := extract_host_from_address arg
     if !host.data.isEmpty && !is_allowed_host host then
       some ("IPv6 address is not loopback: " ++ arg)
     else none)
  | .hostPort, arg =>
    (let host := extract_host_from_address arg
     if !host.data.isEmpty && !is_allowed_host host then
       some ("Host:port contains non-loopback host: " ++ arg)
     else none)
  | .plain, _ => none

/-- The text a token contributes to classification: the part after the first
equals sign for a dash token, nothing for a bare dash token, the token itself
otherwise. -/
def effectiveToken (arg : String) : Option String :=
  if arg.data.headD ' ' == '-' then
    match splitFirst '=' arg.data with
    | some (_, value) => some ⟨value⟩
    | none => none
  else some arg

/-- Whether a token matches any of the four network shapes after flag
handling. -/
def networkShaped (arg : String) : Bool :=
  match effectiveToken arg with
  | none => false
  | some a =>
    urlMatch a || ipv4PatMatch a || ipv6PatMatch a || (hostPortMatch a && a.data.contains ':')

/-! ## Timestamps and the report directory (get_timestamp, create_report_directory) -/

/-- A UTC wall-clock instant, the data datetime.now(UTC) supplies. -/
structure UTCTime where
  year : Nat
  month : Nat
  day : Nat
  hour : Nat
  minute : Nat
  second : Nat
  microsecond : Nat
deriving DecidableEq, Repr

/-- Zero-padded decimal rendering, as the strftime numeric directives print. -/
def padNum (width n : Nat) : List Char :=
  let d := Nat.toDigits 10 n
  List.replicate (width - d.length) '0' ++ d

/-- get_timestamp: strftime with pattern year-month-dayThour-minute-second.micro
(six microsecond digits), then the last three characters removed, leaving
millisecond precision. -/
def get_timestamp (now : UTCTime) : String :=
  let full := padNum 4 now.year ++ '-' :: padNum 2 now.month ++ '-' :: padNum 2 now.day
    ++ 'T' :: padNum 2 now.hour ++ '-' :: padNum 2 now.minute ++ '-' :: padNum 2 now.second
    ++ '.' :: padNum 6 now.microsecond
  ⟨full.take (full.length - 3)⟩

/-- Python word character at the ASCII level, the class the sanitizing regex
keeps besides hyphen and dot. -/
def isWordChar (c : Char) : Bool := c.isAlphanum || c == '_'

/-- The sanitization regex substitution: every character that is not a word
character, hyphen or dot becomes an underscore. -/
def sanitizeCommandName (s : String) : String :=
  ⟨s.data.map fun c => if isWordChar c || c == '-' || c == '.' then c else '_'⟩

/-- A requested directory creation: the path components and the mkdir flags
used (parents created, existing directory tolerated). -/
structure ReportDirAction where
  path : List String
  parents : Bool
  existOk : Bool
deriving DecidableEq, Repr

/-- create_report_directory: the path test-output slash autoapprove slash
timestamp-hyphen-sanitized-name, created with parents and exist_ok. -/
def create_report_directory (now : UTCTime) (command_name : String) : ReportDirAction :=
  { path := ["./test-output", "autoapprove",
             get_timestamp now ++ "-" ++ sanitizeCommandName command_name],
    parents := true, existOk := true }

/-- Spec-side sanitization, stated from the specification words for the
refinement comparison: replace every character outside capital letters, small
letters, digits, underscore, dot and hyphen with an underscore. -/
def specSanitize (s : String) : String :=
  ⟨s.data.map fun c =>
    if (decide ('A' ≤ c) && decide (c ≤ 'Z')) || (decide ('a' ≤ c) && decide (c ≤ 'z')) ||
        (decide ('0' ≤ c) && decide (c ≤ '9')) || c == '_' || c == '.' || c == '-' then c
    else '_'⟩

/-! ## The execution pipeline (run_command, main) -/

/-- What the attempted subprocess.run did: completion with captured streams
and a return code, or one of the three spawn-time exceptions. -/
inductive SpawnResult where
  | completed (stdout stderr : String) (returncode : Int)
  | fileNotFound
  | permissionDenied
  | otherError (message : String)
deriving DecidableEq, Repr

/-- The observable outcome of run_command: the four log files of the report
directory, the bytes echoed to the wrapper's own streams, and the returned
exit code. -/
structure RunReport where
  stdinLog : String
  stdoutLog : String
  stderrLog : String
  resultLogExitCode : Int
  resultLogWritten : Bool
  echoedStdout : String
  echoedStderr : String
  exitCode : Int
deriving DecidableEq, Repr

/-- run_command: log stdin (empty file when none), classify the spawn result
(completion keeps the child's streams and code; a missing binary yields 127
and a synthetic not-found message; a permission fault yields 126 and a
synthetic message; any other fault yields 1 and a synthetic message around the
exception text), write the stdout, stderr and result logs, echo the captured
bytes, and return the exit code. -/
def run_command (command : List String) (spawn : SpawnResult) (stdin_data : Option String) :
    RunReport :=
  let stdinLog := match stdin_data with
    | some d => d
    | none => ""
  let out : String × String × Int := match spawn with
    | .completed o e c => (o, e, c)
    | .fileNotFound => ("", "Command not found: " ++ command.headD "" ++ "\n", 127)
    | .permissionDenied => ("", "Permission denied: " ++ command.headD "" ++ "\n", 126)
    | .otherError msg => ("", "Error executing command: " ++ msg ++ "\n", 1)
  { stdinLog := stdinLog, stdoutLog := out.1, stderrLog := out.2.1,
    resultLogExitCode := out.2.2, resultLogWritten := true,
    echoedStdout := out.1, echoedStderr := out.2.1, exitCode := out.2.2 }

/-- os.path.basename on POSIX: the part after the last slash. -/
def pyBasename (s : String) : String := ⟨afterLastChar '/' s.data⟩

/-- The observable outcome of one main invocation: the diagnostic lines main
itself writes to stderr, the returned exit code, whether a child spawn was
attempted, whether the validator ran, and the report directory and run report
when produced. -/
structure MainResult where
  stderrLines : List String
  exitCode : Int
  spawnAttempted : Bool
  validationPerformed : Bool
  reportDir : Option ReportDirAction
  runReport : Option RunReport
deriving DecidableEq, Repr

/-- main after argument parsing: with no command, print usage and return 1;
otherwise validate unless skipped and, on denial, write the three diagnostic
lines and return 1 without touching the filesystem or a process; otherwise
create the report directory for the basename of the command and run it,
propagating the exit code.  The wall-clock instant, the stdin bytes and the
spawn outcome are inputs of the model. -/
def main_model (skip_validation : Bool) (command : List String) (now : UTCTime)
    (stdin_data : Option String) (spawn : SpawnResult) : MainResult :=
  if command.isEmpty then
    { stderrLines := [], exitCode := 1, spawnAttempted := false, validationPerformed := false,
      reportDir := none, runReport := none }
  else if !skip_validation && !(validate_network_args command).1 then
    { stderrLines :=
        ["autoapprove: Network validation failed: " ++ (validate_network_args command).2 ++ "\n",
         "autoapprove: Only loopback addresses (127.0.0.1, ::1, localhost) are allowed.\n",
         "autoapprove: Use --skip-validation to bypass this check (not recommended).\n"],
      exitCode := 1, spawnAttempted := false, validationPerformed := true,
      reportDir := none, runReport := none }
  else
    let rr := run_command command spawn stdin_data
    { stderrLines := [], exitCode := rr.exitCode, spawnAttempted := true,
      validationPerformed := !skip_validation,
      reportDir := some (create_report_directory now (pyBasename (command.headD ""))),
      runReport := some rr }

/-! ## Helper lemmas -/

/-- Appending strings appends their character lists. -/
theorem data_append (a b : String) : (a ++ b).data = a.data ++ b.data := by
  cases a
  cases b
  rfl

/-- The in-range test of the spec loopback case agrees with the embedded
is_loopback_address on every string, by cases on the parse result. -/
theorem spec_loopback_eq_code (s : String) :
    (match ip_address s with
     | some (.v4 v) => v / 16777216 == 127
     | some (.v6 v) => v == 1
     | none => false) = is_loopback_address s := by
  unfold is_loopback_address
  cases ip_address s with
  | none => rfl
  | some ip => cases ip <;> rfl

/-- dropWhile is the identity on a list none of whose elements satisfy the
predicate. -/
theorem dropWhile_eq_self_of_all_not {p : Char → Bool} {l : List Char}
    (h : l.all (fun c => !p c) = true) : l.dropWhile p = l := by
  cases l with
  | nil => rfl
  | cons c t =>
    rw [List.all_cons, Bool.and_eq_true] at h
    have hc : p c = false := by simpa using h.1
    rw [List.dropWhile_cons, if_neg (by simp [hc])]

/-- Stripping brackets from a bracket-free list changes nothing. -/
theorem stripL_of_no_brackets (l : List Char) (h : l.all (fun c => !isBracketChar c) = true) :
    stripBrackList l = l := by
  unfold stripBrackList
  rw [dropWhile_eq_self_of_all_not h,
    dropWhile_eq_self_of_all_not (by rw [List.all_reverse]; exact h), List.reverse_reverse]

/-- Stripping brackets from a bracket-free list wrapped in one bracket pair
recovers the list. -/
theorem stripL_wrapped (l : List Char) (h : l.all (fun c => !isBracketChar c) = true) :
    stripBrackList ('[' :: (l ++ [']'])) = l := by
  unfold stripBrackList
  rw [List.dropWhile_cons, if_pos (by rfl)]
  cases l with
  | nil => rfl
  | cons c t =>
    have h1 : List.dropWhile isBracketChar ((c :: t) ++ [']']) = (c :: t) ++ [']'] := by
      rw [List.all_cons, Bool.and_eq_true] at h
      have hc : isBracketChar c = false := by simpa using h.1
      rw [List.cons_append, List.dropWhile_cons, if_neg (by simp [hc])]
    rw [h1]
    have h2 : ((c :: t) ++ [']']).reverse = ']' :: (c :: t).reverse := by
      rw [List.reverse_append]
      rfl
    rw [h2, List.dropWhile_cons, if_pos (by rfl),
      dropWhile_eq_self_of_all_not (by rw [List.all_reverse]; exact h), List.reverse_reverse]

/-- A token matching none of the four shapes is classified to no denial. -/
theorem classifyNonFlag_none_of_no_match (a : String) (h1 : urlMatch a = false)
    (h2 : ipv4PatMatch a = false) (h3 : ipv6PatMatch a = false)
    (h4 : (hostPortMatch a && a.data.contains ':') = false) :
    classifyNonFlag a = none := by
  unfold classifyNonFlag
  rw [if_neg (by rw [h1]; simp), if_neg (by rw [h2]; simp), if_neg (by rw [h3]; simp),
    if_neg (by rw [h4]; simp)]

/-- A token that is not network-shaped contributes nothing to the scan. -/
theorem checkToken_none_of_not_shaped (a : String) (h : networkShaped a = false) :
    checkToken a = none := by
  unfold networkShaped effectiveToken at h
  unfold checkToken
  by_cases hd : (a.data.headD ' ' == '-') = true
  · rw [if_pos hd] at h ⊢
    cases hs : splitFirst '=' a.data with
    | none => rfl
    | some p =>
      obtain ⟨fl, val⟩ := p
      rw [hs] at h
      have h2 : (urlMatch ⟨val⟩ || ipv4PatMatch ⟨val⟩ || ipv6PatMatch ⟨val⟩ ||
          (hostPortMatch ⟨val⟩ && (String.mk val).data.contains ':')) = false := h
      simp only [Bool.or_eq_false_iff] at h2
      show classifyNonFlag ⟨val⟩ = none
      exact classifyNonFlag_none_of_no_match _ h2.1.1.1 h2.1.1.2 h2.1.2 h2.2
  · rw [if_neg hd] at h ⊢
    have h2 : (urlMatch a || ipv4PatMatch a || ipv6PatMatch a ||
        (hostPortMatch a && a.data.contains ':')) = false := h
    simp only [Bool.or_eq_false_iff] at h2
    exact classifyNonFlag_none_of_no_match _ h2.1.1.1 h2.1.1.2 h2.1.2 h2.2

/-- A token whose check is silent can be inserted anywhere without changing the
validation outcome. -/
theorem validate_insert_inert (xs ys : List String) (tok : String)
    (hk : checkToken tok = none) :
    validate_network_args (xs ++ tok :: ys) = validate_network_args (xs ++ ys) := by
  induction xs with
  | nil => simp [validate_network_args, hk]
  | cons a t ih =>
    cases hca : checkToken a <;> simp [validate_network_args, hca, ih]

/-! ## Claim theorems -/

/-- C2, counterexample: the claim's characterization (lowercase form in the
hostname set, or the string itself parses as a loopback IP) misses the bracket
stripping the code performs first: the bracketed loopback literal is allowed
by the code although its lowercase form is not in the hostname set and it does
not parse as an IP address. -/
theorem C2_bracketed_loopback_counterexample :
    is_allowed_host "[::1]" = true ∧ specAllowedHost "[::1]" = false := by
  constructor
  · decide
  · decide

/-- C2, amended: for every host string, the policy allows it iff, after
stripping surrounding square brackets, its lowercase form is in the fixed
hostname set or it parses as a valid IP address in the loopback range; every
other string, including malformed strings that fail IP parsing, is denied by
the total function returning false. -/
theorem C2_allowed_host_matches_spec_after_strip (host : String) :
    is_allowed_host host = specAllowedHost (stripBracketChars host) := by
  unfold is_allowed_host specAllowedHost
  rw [spec_loopback_eq_code]
  show (if LOOPBACK_HOSTNAMES.contains (lowerStr (stripBracketChars host)) then true
      else is_loopback_address (stripBracketChars host)) =
    (LOOPBACK_HOSTNAMES.contains (lowerStr (stripBracketChars host)) ||
      is_loopback_address (stripBracketChars host))
  cases h : LOOPBACK_HOSTNAMES.contains (lowerStr (stripBracketChars host)) <;> simp

/-- C6: a spawn failure is classified exactly as: binary not found gives exit
code 127 with synthetic stderr naming the missing command; permission denied
gives 126 with its synthetic message; any other spawn fault gives 1 with its
synthetic message around the exception detail; in all three cases the captured
stdout is empty and the stdout, stderr and result logs are still written. -/
theorem C6_spawn_failure_classification (name : String) (rest : List String)
    (stdin_data : Option String) (msg : String) :
    ((run_command (name :: rest) .fileNotFound stdin_data).exitCode = 127 ∧
      (run_command (name :: rest) .fileNotFound stdin_data).stderrLog =
        "Command not found: " ++ name ++ "\n" ∧
      (run_command (name :: rest) .fileNotFound stdin_data).stdoutLog = "" ∧
      (run_command (name :: rest) .fileNotFound stdin_data).resultLogWritten = true) ∧
    ((run_command (name :: rest) .permissionDenied stdin_data).exitCode = 126 ∧
      (run_command (name :: rest) .permissionDenied stdin_data).stderrLog =
        "Permission denied: " ++ name ++ "\n" ∧
      (run_command (name :: rest) .permissionDenied stdin_data).stdoutLog = "" ∧
      (run_command (name :: rest) .permissionDenied stdin_data).resultLogWritten = true) ∧
    ((run_command (name :: rest) (.otherError msg) stdin_data).exitCode = 1 ∧
      (run_command (name :: rest) (.otherError msg) stdin_data).stderrLog =
        "Error executing command: " ++ msg ++ "\n" ∧
      (run_command (name :: rest) (.otherError msg) stdin_data).stdoutLog = "" ∧
      (run_command (name :: rest) (.otherError msg) stdin_data).resultLogWritten = true) :=
  ⟨⟨rfl, rfl, rfl, rfl⟩, ⟨rfl, rfl, rfl, rfl⟩, ⟨rfl, rfl, rfl, rfl⟩⟩

/-- The sanitizing substitution of the code and the character rule of the spec
agree on every character. -/
theorem sanitize_char_rule (c : Char) :
    (if isWordChar c || c == '-' || c == '.' then c else '_') =
    (if (decide ('A' ≤ c) && decide (c ≤ 'Z')) || (decide ('a' ≤ c) && decide (c ≤ 'z')) ||
        (decide ('0' ≤ c) && decide (c ≤ '9')) || c == '_' || c == '.' || c == '-' then c
      else '_') := by
  have hcond : (isWordChar c || c == '-' || c == '.') =
      ((decide ('A' ≤ c) && decide (c ≤ 'Z')) || (decide ('a' ≤ c) && decide (c ≤ 'z')) ||
        (decide ('0' ≤ c) && decide (c ≤ '9')) || c == '_' || c == '.' || c == '-') := by
    have hu : c.isUpper = (decide ('A' ≤ c) && decide (c ≤ 'Z')) := by
      simp [Char.isUpper, Char.le_def]
    have hl : c.isLower = (decide ('a' ≤ c) && decide (c ≤ 'z')) := by
      simp [Char.isLower, Char.le_def]
    have hd : c.isDigit = (decide ('0' ≤ c) && decide (c ≤ '9')) := by
      simp [Char.isDigit, Char.le_def]
    unfold isWordChar
    rw [Char.isAlphanum, Char.isAlpha, hu, hl, hd]
    cases decide ('A' ≤ c) && decide (c ≤ 'Z') <;>
      cases decide ('a' ≤ c) && decide (c ≤ 'z') <;>
      cases decide ('0' ≤ c) && decide (c ≤ '9') <;>
      cases c == '_' <;> cases c == '.' <;> cases c == '-' <;> rfl
  rw [hcond]

/-- The full sanitization agrees with the spec rule on every string. -/
theorem sanitize_eq_spec (s : String) : sanitizeCommandName s = specSanitize s := by
  unfold sanitizeCommandName specSanitize
  congr 1
  induction s.data with
  | nil => rfl
  | cons c t ih => simp only [List.map_cons, ih, sanitize_char_rule c]

/-- C8: create_report_directory builds the path report-root slash autoapprove
slash timestamp-hyphen-sanitized-name, where the sanitization replaces every
character outside letters, digits, underscore, dot and hyphen with an
underscore, and requests creation of the directory with its parents,
tolerating an existing one. -/
theorem C8_report_directory_contract (now : UTCTime) (command_name : String) :
    create_report_directory now command_name =
      { path := ["./test-output", "autoapprove",
                 get_timestamp now ++ "-" ++ specSanitize command_name],
        parents := true, existOk := true } := by
  unfold create_report_directory
  rw [sanitize_eq_spec]

/-- C9: the policy is invariant under IPv6-style bracketing: wrapping a
bracket-free host string in one bracket pair does not change the decision of
is_allowed_host, because surrounding brackets are stripped before the hostname
and loopback checks. -/
theorem C9_bracket_wrapping_invariance (s : String)
    (h : s.data.all (fun c => !isBracketChar c) = true) :
    is_allowed_host ("[" ++ s ++ "]") = is_allowed_host s := by
  have hw : stripBracketChars ("[" ++ s ++ "]") = s := by
    unfold stripBracketChars
    have hdata : ("[" ++ s ++ "]").data = '[' :: (s.data ++ [']']) := by
      rw [data_append, data_append]
      rfl
    rw [hdata, stripL_wrapped s.data h]
  have hs : stripBracketChars s = s := by
    unfold stripBracketChars
    rw [stripL_of_no_brackets s.data h]
  unfold is_allowed_host
  rw [hw, hs]

/-- C9, witness: applied to the IPv6 loopback literal, whose bracketed form is
therefore allowed. -/
theorem C9_bracket_wrapping_invariance_witness :
    is_allowed_host "[::1]" = is_allowed_host "::1" ∧ is_allowed_host "::1" = true ∧
      is_allowed_host "[::1]" = true :=
  ⟨C9_bracket_wrapping_invariance "::1" (by decide),
   by decide,
   (C9_bracket_wrapping_invariance "::1" (by decide)).trans (by decide)⟩

/-- C1: on every invocation that does not skip validation and whose argument
list is denied, main writes exactly the three diagnostic lines (the denial
reason, the loopback-only statement, and the skip-validation hint) to the
error stream, returns exit code 1, attempts no spawn and creates no report
directory. -/
theorem C1_denied_invocation_diagnostics (command : List String) (now : UTCTime)
    (stdin_data : Option String) (spawn : SpawnResult)
    (hne : command ≠ []) (hdeny : (validate_network_args command).1 = false) :
    main_model false command now stdin_data spawn =
      { stderrLines :=
          ["autoapprove: Network validation failed: " ++
              (validate_network_args command).2 ++ "\n",
           "autoapprove: Only loopback addresses (127.0.0.1, ::1, localhost) are allowed.\n",
           "autoapprove: Use --skip-validation to bypass this check (not recommended).\n"],
        exitCode := 1, spawnAttempted := false, validationPerformed := true,
        reportDir := none, runReport := none } ∧
    (main_model false command now stdin_data spawn).stderrLines.length = 3 := by
  cases command with
  | nil => exact absurd rfl hne
  | cons a t =>
    constructor
    · simp [main_model, hdeny]
    · simp [main_model, hdeny]

/-- C1, witness: the denied invocation of curl against a public URL. -/
theorem C1_denied_invocation_diagnostics_witness :
    main_model false ["curl", "http://example.com"] ⟨2025, 1, 1, 0, 0, 0, 0⟩ none
        (.completed "" "" 0) =
      { stderrLines :=
          ["autoapprove: Network validation failed: URL contains non-loopback host: http://example.com\n",
           "autoapprove: Only loopback addresses (127.0.0.1, ::1, localhost) are allowed.\n",
           "autoapprove: Use --skip-validation to bypass this check (not recommended).\n"],
        exitCode := 1, spawnAttempted := false, validationPerformed := true,
        reportDir := none, runReport := none } := by
  have h := (C1_denied_invocation_diagnostics ["curl", "http://example.com"]
    ⟨2025, 1, 1, 0, 0, 0, 0⟩ none (.completed "" "" 0) (by decide) (by decide)).1
  have e : (validate_network_args ["curl", "http://example.com"]).2 =
      "URL contains non-loopback host: http://example.com" := by decide
  rw [e] at h
  exact h

/-- C7, counterexample: a denied invocation yields no report directory and no
execution record, refuting the claim that every invocation yields exactly one
of each whether validation allows or denies it. -/
theorem C7_denied_invocation_no_artifacts_counterexample :
    (main_model false ["curl", "http://example.com/api"] ⟨2025, 1, 1, 0, 0, 0, 0⟩ none
        (.completed "" "" 0)).reportDir = none ∧
    (main_model false ["curl", "http://example.com/api"] ⟨2025, 1, 1, 0, 0, 0, 0⟩ none
        (.completed "" "" 0)).runReport = none := by
  constructor
  · decide
  · decide

/-- C7, amended: on every nonempty command run without skipping validation,
exactly one validation result is produced; when validation allows execution,
exactly one report directory and one execution record are produced; when it
denies, neither is. -/
theorem C7_artifact_invariant (command : List String) (now : UTCTime)
    (stdin_data : Option String) (spawn : SpawnResult) (hne : command ≠ []) :
    (main_model false command now stdin_data spawn).validationPerformed = true ∧
    ((validate_network_args command).1 = true →
      (main_model false command now stdin_data spawn).reportDir.isSome = true ∧
      (main_model false command now stdin_data spawn).runReport.isSome = true) ∧
    ((validate_network_args command).1 = false →
      (main_model false command now stdin_data spawn).reportDir = none ∧
      (main_model false command now stdin_data spawn).runReport = none) := by
  cases command with
  | nil => exact absurd rfl hne
  | cons a t =>
    cases hv : (validate_network_args (a :: t)).1 with
    | false => simp [main_model, hv]
    | true => simp [main_model, hv]

/-- C7, witness: an allowed echo invocation produces both artifacts; a denied
curl invocation produces neither. -/
theorem C7_artifact_invariant_witness :
    ((main_model false ["echo", "hello"] ⟨2025, 1, 1, 0, 0, 0, 0⟩ none
        (.completed "hello\n" "" 0)).reportDir.isSome = true ∧
      (main_model false ["echo", "hello"] ⟨2025, 1, 1, 0, 0, 0, 0⟩ none
        (.completed "hello\n" "" 0)).runReport.isSome = true) ∧
    ((main_model false ["curl", "http://10.0.0.8/"] ⟨2025, 1, 1, 0, 0, 0, 0⟩ none
        (.completed "" "" 0)).reportDir = none ∧
      (main_model false ["curl", "http://10.0.0.8/"] ⟨2025, 1, 1, 0, 0, 0, 0⟩ none
        (.completed "" "" 0)).runReport = none) :=
  ⟨(C7_artifact_invariant ["echo", "hello"] ⟨2025, 1, 1, 0, 0, 0, 0⟩ none
      (.completed "hello\n" "" 0) (by decide)).2.1 (by decide),
   (C7_artifact_invariant ["curl", "http://10.0.0.8/"] ⟨2025, 1, 1, 0, 0, 0, 0⟩ none
      (.completed "" "" 0) (by decide)).2.2 (by decide)⟩

/-- C3: per token, the classification chain checks URL, then IPv4, then IPv6,
then host-colon-port, and the first matching category alone judges the token:
the chain's outcome coincides with the isolated handler of the first matching
category, whatever later patterns would also match. -/
theorem C3_classification_precedence (arg : String) :
    classifyNonFlag arg = judgeToken (classifyToken arg) arg ∧
    (urlMatch arg = true → classifyToken arg = .url) ∧
    (urlMatch arg = false → ipv4PatMatch arg = true → classifyToken arg = .ipv4) ∧
    (urlMatch arg = false → ipv4PatMatch arg = false → ipv6PatMatch arg = true →
      classifyToken arg = .ipv6) ∧
    (urlMatch arg = false → ipv4PatMatch arg = false → ipv6PatMatch arg = false →
      (hostPortMatch arg && arg.data.contains ':') = true → classifyToken arg = .hostPort) := by
  refine ⟨?_, ?_, ?_, ?_, ?_⟩
  · unfold classifyNonFlag classifyToken
    split_ifs <;> rfl
  · intro h1
    unfold classifyToken
    rw [if_pos (by rw [h1])]
  · intro h1 h2
    unfold classifyToken
    rw [if_neg (by rw [h1]; simp), if_pos (by rw [h2])]
  · intro h1 h2 h3
    unfold classifyToken
    rw [if_neg (by rw [h1]; simp), if_neg (by rw [h2]; simp), if_pos (by rw [h3])]
  · intro h1 h2 h3 h4
    unfold classifyToken
    rw [if_neg (by rw [h1]; simp), if_neg (by rw [h2]; simp), if_neg (by rw [h3]; simp),
      if_pos (by rw [h4])]

/-- C3, witness: a token matching both the IPv4 pattern and the host-port
pattern is judged under IPv4, the earlier category, and its denial message
names the IPv4 category. -/
theorem C3_classification_precedence_witness :
    ipv4PatMatch "1.2.3.4:80" = true ∧ hostPortMatch "1.2.3.4:80" = true ∧
    classifyToken "1.2.3.4:80" = .ipv4 ∧
    classifyNonFlag "1.2.3.4:80" = judgeToken (classifyToken "1.2.3.4:80") "1.2.3.4:80" ∧
    classifyNonFlag "1.2.3.4:80" = some "IPv4 address is not loopback: 1.2.3.4:80" :=
  ⟨by decide, by decide,
   (C3_classification_precedence "1.2.3.4:80").2.2.1 (by decide) (by decide),
   (C3_classification_precedence "1.2.3.4:80").1,
   by decide⟩

/-- C4, counterexample: the token made of the two hexadecimal letters d and d
carries no URL scheme, is no dotted quad and has neither bracket nor colon,
yet it matches the IPv6 pattern (whose character class needs only hexadecimal
digits or colons) and the command consisting of it alone is denied, refuting
both the bracket-or-colon characterization and the claimed consequence. -/
theorem C4_hex_word_denied_counterexample :
    urlMatch "dd" = false ∧ ipv4PatMatch "dd" = false ∧
    "dd".data.contains '[' = false ∧ "dd".data.contains ':' = false ∧
    ipv6PatMatch "dd" = true ∧
    validate_network_args ["dd"] = (false, "IPv6 address is not loopback: dd") := by
  refine ⟨by decide, by decide, by decide, by decide, by decide, by decide⟩

/-- C4, amended: the IPv6 pattern accepts any optionally bracketed nonempty
run of hexadecimal digits and colons with an optional numeric port, so a
bracket or colon is not required and a bare hexadecimal word is IPv6-shaped
and denied; an argument list all of whose tokens (after flag handling) match
none of the four network shapes validates as allowed. -/
theorem C4_unshaped_args_allowed (args : List String)
    (h : args.all (fun a => !networkShaped a) = true) :
    validate_network_args args = (true, "") := by
  induction args with
  | nil => rfl
  | cons a rest ih =>
    rw [List.all_cons, Bool.and_eq_true] at h
    have hk : checkToken a = none :=
      checkToken_none_of_not_shaped a (by simpa using h.1)
    simp [validate_network_args, hk, ih h.2]

/-- C4, witness: a docker command with only plain words and a bare flag. -/
theorem C4_unshaped_args_allowed_witness :
    (["docker", "ps", "-a"].all (fun a => !networkShaped a) = true) ∧
    validate_network_args ["docker", "ps", "-a"] = (true, "") :=
  ⟨by decide, C4_unshaped_args_allowed ["docker", "ps", "-a"] (by decide)⟩

/-- C5: for every token beginning with a dash, when it contains an equals sign
only the text after the first equals sign is classified (the flag name is
never inspected: the outcome is the classification of that text alone), and
when it contains none the token is skipped and can never cause denial. -/
theorem C5_flag_value_classification (arg : String) (hd : arg.data.headD ' ' = '-') :
    (∀ fl value, splitFirst '=' arg.data = some (fl, value) →
      checkToken arg = classifyNonFlag ⟨value⟩) ∧
    (splitFirst '=' arg.data = none → checkToken arg = none) := by
  unfold checkToken
  rw [if_pos (by rw [hd]; rfl)]
  constructor
  · intro fl value hsp
    rw [hsp]
  · intro hsp
    rw [hsp]

/-- C5, witness: the curl flag whose value is a public URL is classified on
the value alone and denied with a message naming the non-loopback host; a
bare flag without equals sign is skipped. -/
theorem C5_flag_value_classification_witness :
    checkToken "--url=http://example.com" = classifyNonFlag "http://example.com" ∧
    validate_network_args ["curl", "--url=http://example.com"] =
      (false, "URL contains non-loopback host: http://example.com") ∧
    checkToken "-v" = none :=
  ⟨(C5_flag_value_classification "--url=http://example.com" (by decide)).1
      "--url".data "http://example.com".data (by decide),
   by decide,
   (C5_flag_value_classification "-v" (by decide)).2 (by decide)⟩

/-- C10: an empty token, or a dash token whose first equals sign is its last
character, is never the cause of a denial: inserting such a token anywhere in
an argument list leaves the validation outcome unchanged. -/
theorem C10_inert_tokens (xs ys : List String) (tok : String)
    (h : tok = "" ∨ (tok.data.headD ' ' = '-' ∧
      ∃ fl, splitFirst '=' tok.data = some (fl, []))) :
    validate_network_args (xs ++ tok :: ys) = validate_network_args (xs ++ ys) := by
  have hk : checkToken tok = none := by
    rcases h with h | ⟨hd, fl, hsp⟩
    · subst h
      rfl
    · unfold checkToken
      rw [if_pos (by rw [hd]; rfl), hsp]
      rfl
  exact validate_insert_inert xs ys tok hk

/-- C10, witness: inserting an empty token before a denied URL, or a flag with
an empty value after curl, changes nothing. -/
theorem C10_inert_tokens_witness :
    validate_network_args ["curl", "", "http://example.com/x"] =
      validate_network_args ["curl", "http://example.com/x"] ∧
    validate_network_args ["curl", "--data="] = validate_network_args ["curl"] :=
  ⟨C10_inert_tokens ["curl"] ["http://example.com/x"] "" (Or.inl rfl),
   C10_inert_tokens ["curl"] [] "--data=" (Or.inr ⟨by decide, "--data".data, by decide⟩)⟩

end Autoapprove
